import Mathlib

/-!
Verification development for the acfun-downloader repository.

The Python source is shallowly embedded: pure control flow is translated to
Lean functions, the filesystem is threaded as an explicit list of file names,
network fetches and external library calls (regular-expression matching,
JSON decoding, date parsing) are inputs to the embedded functions, and
Python dynamic-typing behaviour (truthiness, `len`, subscripting, the
`TypeError`s raised by subscripting non-dict values) is modelled explicitly
where the source relies on it.
-/

namespace AcfunDl

/-! ## models.py -/

/-- Embeds `models.Vid`: Acfun video id (without the `ac` prefix). -/
structure Vid where
  value : String
deriving Repr, DecidableEq

/-- Embeds `models.Uid`: Acfun user id. -/
structure Uid where
  value : String
deriving Repr, DecidableEq

/-- Embeds `models.Uploader`. -/
structure Uploader where
  uid : Uid
  name : String
deriving Repr, DecidableEq

/-- Embeds `models.PartVideoMetadata`: vid and title of one part of a multi-part video. -/
structure PartVideoMetadata where
  vid : Vid
  title : String
deriving Repr, DecidableEq

/-- Embeds `models.MultiPartInfo`: the multi-part descriptor (a Python `NamedTuple`
with exactly two fields, so at runtime it is a tuple of length 2). -/
structure MultiPartInfo where
  has_multi_part : Bool
  part_list : List PartVideoMetadata
deriving Repr, DecidableEq

/-! ## downloader.py: quality selection (`_download_single_video`, lines 99-125) -/

/-- One entry of a Stream Set: video url and audio url. -/
structure StreamUrls where
  video : String
  audio : String
deriving Repr, DecidableEq

/-- A Stream Set: mapping from quality-tier label to stream urls,
modelled as an association list (Python dict). -/
abbrev StreamSet := List (String × StreamUrls)

/-- Embeds `qualities = ["1080p", "720p", "480p", "360p"]` (downloader.py line 100). -/
def qualities : List String := ["1080p", "720p", "480p", "360p"]

/-- Embeds `quality_idx = qualities.index(quality) if quality in qualities else 1`
(downloader.py line 103). -/
def qualityIdx (quality : String) : Nat :=
  if quality ∈ qualities then qualities.indexOf quality else 1

/-- Scan a list of indices into `qualities`, returning the first tier
present in the Stream Set together with its urls; models a Python
`for`-loop with `break` over `q_idx` values. -/
def findTier (streams : StreamSet) : List Nat → Option (String × StreamUrls)
  | [] => none
  | i :: rest =>
    match qualities.get? i with
    | none => findTier streams rest
    | some q =>
      match streams.lookup q with
      | some s => some (q, s)
      | none => findTier streams rest

/-- Tier selection of `_download_single_video` (downloader.py lines 99-121):
first the downward loop `for q_idx in range(quality_idx, len(qualities))`,
then, if nothing was selected and `quality_idx > 0`, the upward loop
`for q_idx in range(quality_idx - 1, -1, -1)`. -/
def selectedStream (streams : StreamSet) (quality : String) : Option (String × StreamUrls) :=
  match findTier streams
      (List.range' (qualityIdx quality) (qualities.length - qualityIdx quality)) with
  | some r => some r
  | none =>
    if qualityIdx quality > 0 then
      findTier streams (List.range (qualityIdx quality)).reverse
    else none

/-- The fallback as the spec describes it: scan tiers from index `i`
downward (index increasing); the first tier present is selected; if none,
scan from index `i-1` upward (index decreasing); select the first present;
otherwise no tier is selected. -/
def specScan (streams : StreamSet) (i : Nat) : Option String :=
  match (qualities.drop i).find? (fun q => (streams.lookup q).isSome) with
  | some q => some q
  | none => ((qualities.take i).reverse).find? (fun q => (streams.lookup q).isSome)

/-! ## downloader.py: filesystem model for `_download_stream` and the
retrieval/merge phase of `_download_single_video` (lines 127-175, 231-269).

The output directory is modelled as a list of file names (paths relative to
the output directory).  Temporary file names (`temp_video_<hex>`,
`temp_audio_<hex>`, downloader.py line 246) are inputs, since the hex token
comes from `os.urandom`. -/

/-- Possible outcomes of one `_download_stream` call, as they affect the
filesystem: `ok` — every chunk written, path returned; `failEarly` — the
request or `raise_for_status` raised before the temp file was opened, so no
file exists and `None` is returned; `failMid` — an exception after the file
was opened leaves a partly written file behind and `None` is returned
(the `except` branch at lines 267-269 does not delete the file). -/
inductive StreamOutcome where
  | ok
  | failEarly
  | failMid
deriving Repr, DecidableEq

/-- Whether a `_download_stream` call with this outcome creates its temp file. -/
def StreamOutcome.creates : StreamOutcome → Bool
  | .ok => true
  | .failEarly => false
  | .failMid => true

/-- Embeds `_download_stream` (downloader.py lines 231-269): returns the temp path on
success, `none` on failure, together with the filesystem after the call. -/
def download_stream (fs : List String) (tempName : String) (outcome : StreamOutcome) :
    Option String × List String :=
  match outcome with
  | .ok => (some tempName, tempName :: fs)
  | .failEarly => (none, fs)
  | .failMid => (none, tempName :: fs)

/-- Environment of the merge step: the `ffmpeg -version` probe fails
(tool unavailable), or the probe succeeds and the merge invocation
succeeds, or the probe succeeds and the merge invocation raises. -/
inductive MergeEnv where
  | ffmpegMissing
  | mergeOk
  | mergeFail
deriving Repr, DecidableEq

/-- Character replacement of the re.sub call at downloader.py line 128: each
character in the forbidden set becomes an underscore. -/
def sanitizeChar (c : Char) : Char :=
  if c ∈ ['<', '>', ':', '"', '/', '\\', '|', '?', '*'] then '_' else c

/-- Filename sanitization of a title. -/
def sanitize (title : String) : String :=
  String.mk (title.data.map sanitizeChar)

/-- Effect of `os.rename(src, dst)` on the modelled filesystem. -/
def fsRename (fs : List String) (src dst : String) : List String :=
  dst :: fs.erase src

/-- Embeds `_download_single_video` (downloader.py lines 81-175) from the point the
Stream Set has been obtained: tier selection, the two stream downloads
(run concurrently in the source; their filesystem effects touch distinct
unique temp names, so they are modelled in join order), and the merge step.
Returns the boolean result and the final filesystem. -/
def download_single_video (streams : StreamSet) (quality title : String)
    (vTemp aTemp : String) (vOut aOut : StreamOutcome) (menv : MergeEnv)
    (fs : List String) : Bool × List String :=
  match selectedStream streams quality with
  | none => (false, fs)
  | some _ =>
    let safe := sanitize title
    let r1 := download_stream fs vTemp vOut
    let r2 := download_stream r1.2 aTemp aOut
    match r1.1, r2.1 with
    | some videoPath, some audioPath =>
      match menv with
      | .ffmpegMissing =>
        -- lines 148-156: rename the temp files to permanent outputs, return True
        let fsV := fsRename r2.2 videoPath (safe ++ "_video.mp4")
        let fsA := fsRename fsV audioPath (safe ++ "_audio.m4a")
        (true, fsA)
      | .mergeOk =>
        -- lines 158-171: ffmpeg creates the merged output, temp files removed
        let fsM := (safe ++ ".mp4") :: r2.2
        (true, (fsM.erase videoPath).erase audioPath)
      | .mergeFail =>
        -- lines 173-175: the ffmpeg invocation raises; temp files remain
        (false, r2.2)
    | _, _ =>
      -- lines 139-141: either stream failed; return False with no cleanup
      (false, r2.2)

/-! ## downloader.py: `_get_video_streams` (lines 177-229).

Inputs: the fetched page (`none` when the request or `raise_for_status`
raises), the result of the regular-expression search for
`window.videoInfo\s*=\s*({.+?});` (a function from the page text to the
optional matched blob), and the verdict of the JSON decoder on the blob
(`json.loads` raising is modelled by `jsonOk blob = false`). -/

/-- Embeds `_get_video_streams`: on any successfully fetched page holding a blob
that decodes as JSON it returns the hard-coded two-tier Stream Set
(downloader.py lines 213-223), ignoring the decoded value; otherwise `none`. -/
def get_video_streams (regexBlob : String → Option String) (jsonOk : String → Bool)
    (vid : String) (fetched : Option String) : Option StreamSet :=
  match fetched with
  | none => none
  | some html =>
    match regexBlob html with
    | none => none
    | some blob =>
      if jsonOk blob then
        some [("720p", ⟨"https://example.com/video/" ++ vid ++ "_720p.m3u8",
                        "https://example.com/audio/" ++ vid ++ ".m3u8"⟩),
              ("480p", ⟨"https://example.com/video/" ++ vid ++ "_480p.m3u8",
                        "https://example.com/audio/" ++ vid ++ ".m3u8"⟩)]
      else none

/-! ## extractor.py: the fetched video page document.

The document is modelled by the results of the structural lookups the
extractor performs on it; each field is `Option`al, `none` meaning the
selector found nothing. -/

/-- One `li.single-p` entry of the part-list region: its `title` attribute
(`none` when absent, Python default `"未知标题"`) and its `data-href`
attribute (`li_elem.get("data-href", "")` defaults to `""`). -/
structure PartLi where
  titleAttr : Option String
  dataHref : String
deriving Repr, DecidableEq

/-- A fetched video page as seen by `get_video_info` / `get_multi_p_info`:
`titleElem` — stripped text of `h1.title`; `upName` — when the `.up-info`
block and its `.up-name` element are present, the stripped text of the element
and `href` attribute; `dateElem` — stripped text of `.video-info-main time`;
`coverSrc` — `src` of `.video-cover img` when present; `partDiv` — the
`li.single-p` entries of `div.part` in document order, `none` when the
`div.part` region is absent. -/
structure VideoDoc where
  titleElem : Option String
  upName : Option (String × String)
  dateElem : Option String
  coverSrc : Option String
  partDiv : Option (List PartLi)
deriving Repr, DecidableEq

/-- A page in which every optional field is absent. -/
def emptyDoc : VideoDoc := ⟨none, none, none, none, none⟩

/-- Embeds `get_multi_p_info` (extractor.py lines 128-185) on a successfully fetched
page: if `div.part` is absent, `MultiPartInfo(False, [])`; otherwise
`MultiPartInfo(True, parts)` with one entry per `li.single-p` in document
order, the part vid taken from the `ac(\d+_\d+)` match on `data-href`
(`matchPartVid` is the regex engine; no match yields `""`, lines 167-171). -/
def get_multi_p_info (matchPartVid : String → Option String) (d : VideoDoc) :
    MultiPartInfo :=
  match d.partDiv with
  | none => ⟨false, []⟩
  | some lis =>
    ⟨true, lis.map (fun li =>
      ⟨⟨(matchPartVid li.dataHref).getD ""⟩, li.titleAttr.getD "未知标题"⟩)⟩

/-! ## extractor.py: `get_video_info` (lines 41-126).

Line 104 binds `part_list` to the result of `get_multi_p_info`, which at
runtime is either a `MultiPartInfo` named tuple (success) or the plain list
`[]` (the `except` branch at line 185).  Lines 105-112 then treat it as a
list of dicts: `if part_list and len(part_list) > 1:` and
`for part in part_list: part_url = part["url"]`.  A named tuple with two
fields has `len` 2 and is truthy, its elements are a `bool` and a `list`,
and subscripting either with the string `"url"` raises `TypeError`.  These
Python dynamics are modelled explicitly below. -/

/-- Runtime value returned by `get_multi_p_info`: the named tuple, or the
empty list from its `except` branch. -/
inductive MultiPResult where
  | info (m : MultiPartInfo)
  | emptyList
deriving Repr, DecidableEq

/-- Python truthiness of the `part_list` value (a two-field named tuple is a
non-empty tuple, hence truthy; `[]` is falsy). -/
def MultiPResult.truthy : MultiPResult → Bool
  | .info _ => true
  | .emptyList => false

/-- Python `len` of the `part_list` value (the `len` of a named tuple is its
field count). -/
def MultiPResult.pyLen : MultiPResult → Nat
  | .info _ => 2
  | .emptyList => 0

/-- An element produced by iterating the `part_list` value: iterating a
`MultiPartInfo` named tuple yields its `has_multi_part` bool and its
`part_list` list. -/
inductive PartElem where
  | pyBool (b : Bool)
  | pyList (l : List PartVideoMetadata)
deriving Repr, DecidableEq

/-- Python iteration over the `part_list` value. -/
def MultiPResult.iterate : MultiPResult → List PartElem
  | .info m => [.pyBool m.has_multi_part, .pyList m.part_list]
  | .emptyList => []

/-- Python evaluation of `part["url"]` on an iterated element: a `bool` and a
`list` are both unsubscriptable by a string, raising `TypeError`. -/
def PartElem.subscriptUrl : PartElem → Except String String
  | .pyBool _ => .error "TypeError: bool object is not subscriptable"
  | .pyList _ => .error "TypeError: list indices must be integers or slices, not str"

/-- The loop body of extractor.py lines 107-112 over the iterated elements,
accumulating `multi_p`; `matchAcNum` is the regex engine for `ac(\d+)`. -/
def multiPLoop (matchAcNum : String → Option String) :
    List PartElem → List Vid → Except String (List Vid)
  | [], acc => .ok acc
  | e :: rest, acc => do
    let url ← e.subscriptUrl
    match matchAcNum url with
    | some v => multiPLoop matchAcNum rest (acc ++ [⟨v⟩])
    | none => multiPLoop matchAcNum rest acc

/-- Lines 101-112 of extractor.py: compute `has_multi_p` and `multi_p` from
the runtime `part_list` value, propagating any `TypeError`. -/
def multiPSection (matchAcNum : String → Option String) (partList : MultiPResult) :
    Except String (Bool × List Vid) :=
  if partList.truthy && decide (partList.pyLen > 1) then
    (multiPLoop matchAcNum partList.iterate []).map (fun mp => (true, mp))
  else
    .ok (false, [])

/-- The record `get_video_info` builds at lines 114-122.  (`VideoMetadata` is
declared as a `TypedDict` without `has_multi_p`, but `TypedDict` performs no
runtime key checking, so the constructed dict carries exactly these keys.)
`upload_date` is the parsed date string or the `datetime.now()` default. -/
structure VideoInfoRecord where
  vid : Vid
  title : String
  cover_url : String
  uploader : Uploader
  upload_date : String
  has_multi_p : Bool
  multi_p : List Vid
deriving Repr, DecidableEq

/-- Embeds `get_video_info` (extractor.py lines 41-126).  Inputs: the regex engines
for `/u/(\d+)`, `ac(\d+_\d+)` and `ac(\d+)`; `strptime` modelled as
`parseDate` (`none` = `ValueError`, line 92); `now` — the `datetime.now()`
default; the vid string; the page fetched by `get_video_info` itself
(`none` = its request raised, caught at line 124); and the page fetched by
the nested `get_multi_p_info` call (`none` = the own request of that call raised,
so it returned `[]`).  Any exception inside the `try` block yields `none`. -/
def get_video_info (matchUid matchPartVid matchAcNum : String → Option String)
    (parseDate : String → Option String) (now : String) (vidStr : String)
    (fetched : Option VideoDoc) (multiFetched : Option VideoDoc) :
    Option VideoInfoRecord :=
  match fetched with
  | none => none
  | some d =>
    let title := d.titleElem.getD "Unknown Title"
    let uploaderName := (d.upName.map Prod.fst).getD "Unknown"
    let uploaderUid :=
      match d.upName with
      | none => "0"
      | some (_, href) => (matchUid href).getD "0"
    let uploadDate :=
      match d.dateElem with
      | none => now
      | some s => (parseDate s).getD now
    let coverUrl := d.coverSrc.getD ""
    let partList : MultiPResult :=
      match multiFetched with
      | none => .emptyList
      | some d2 => .info (get_multi_p_info matchPartVid d2)
    match multiPSection matchAcNum partList with
    | .error _ => none
    | .ok (hasMultiP, multiP) =>
      some ⟨⟨vidStr⟩, title, coverUrl, ⟨⟨uploaderUid⟩, uploaderName⟩,
            uploadDate, hasMultiP, multiP⟩

/-! ## extractor.py: `get_up_videos` pagination (lines 229-252). -/

/-- Embeds `total_pages = (video_count // 20) + (1 if video_count % 20 > 0 else 0)`
(extractor.py line 235). -/
def total_pages (videoCount : Nat) : Nat :=
  videoCount / 20 + (if videoCount % 20 > 0 then 1 else 0)

/-- The page indices `get_up_videos` fetches, in request order: page 1 is
always fetched (line 206); when `fetch_all_pages` is set and the declared
`video_count` exceeds 20, pages `2 .. total_pages` follow
(`for page in range(2, total_pages + 1)`, line 238). -/
def pagesFetched (videoCount : Nat) (fetchAllPages : Bool) : List Nat :=
  1 :: (if fetchAllPages && decide (videoCount > 20) then
          List.range' 2 (total_pages videoCount - 1)
        else [])

/-! ## downloader.py: `download_up_videos` (lines 271-308).

`get_up_videos` (extractor.py) is annotated and implemented to return
`None` on a request failure or a `list` of video metadata records on
success, but `download_up_videos` reads `user_info["videos"]` and
`user_info["user"]` from it (lines 288, 292) — string subscripts on a
list.  The runtime value is modelled as below, and string-subscripting a
list raises `TypeError`. -/

/-- Runtime value of `self.extractor.get_up_videos(uid, fetch_all_pages=True)`:
`failure` = `None`, else the list of per-video records (represented by
their vid strings; the fields of each record are irrelevant here). -/
inductive UpVideosResult where
  | failure
  | videos (vs : List String)
deriving Repr, DecidableEq

/-- Embeds `download_up_videos`: `if not user_info: return 0` catches both `None`
and the empty list (both falsy); otherwise `user_info["videos"]` raises
`TypeError` because `user_info` is a list.  The per-video loop at lines
295-307 is therefore unreachable on every successful extraction. -/
def download_up_videos (userInfo : UpVideosResult) : Except String Nat :=
  match userInfo with
  | .failure => .ok 0
  | .videos [] => .ok 0
  | .videos (_ :: _) =>
    .error "TypeError: list indices must be integers or slices, not str"

/-- The per-video loop of `download_up_videos` (lines 289-299, 295-307) as
written: cap the list with `videos[:max_videos]` when `max_videos` is
truthy, attempt every remaining video in order, count successes. -/
def downloadUpLoop (videos : List String) (maxVideos : Option Nat)
    (outcome : String → Bool) : Nat × List String :=
  let capped :=
    match maxVideos with
    | some n => if n > 0 then videos.take n else videos
    | none => videos
  (capped.foldl (fun acc v => if outcome v then acc + 1 else acc) 0, capped)

/-! ## models.py: `AcfunId.__eq__` and `__hash__` (lines 16-22).

`Uid` and `Vid` subclass `AcfunId`; `__eq__` checks
`isinstance(other, AcfunId)` — true for every subclass — and compares the
wrapped strings; any other operand yields `False`.  The comparison universe
is modelled by `PyObject`. -/

/-- The concrete identifier subtype. -/
inductive IdKind where
  | base
  | uid
  | vid
deriving Repr, DecidableEq

/-- A Python value an identifier may be compared against. -/
inductive PyObject where
  | acfunId (kind : IdKind) (value : String)
  | pyStr (s : String)
  | pyInt (n : Int)
  | pyNone
deriving Repr, DecidableEq

/-- Whether a `PyObject` passes `isinstance(other, AcfunId)`. -/
def PyObject.isAcfunId : PyObject → Bool
  | .acfunId _ _ => true
  | _ => false

/-- Embeds `AcfunId.__eq__` (models.py lines 19-22), called on an identifier of any
subtype with wrapped string `v`, against `other`. -/
def acfunIdEq (_selfKind : IdKind) (v : String) (other : PyObject) : Bool :=
  match other with
  | .acfunId _ w => v == w
  | _ => false

/-- Embeds `AcfunId.__hash__` (models.py lines 16-17): `hash(self.value)`, with `h`
the Python string hash. -/
def acfunIdHash (h : String → Int) (_selfKind : IdKind) (v : String) : Int :=
  h v

/-! ## Concrete documents used in the theorems -/

/-- A video page whose part-list region has exactly one entry. -/
def onePartDoc : VideoDoc :=
  ⟨none, none, none, none, some [⟨some "P1", "/v/ac12345_1"⟩]⟩

/-- A video page whose part-list region has two entries. -/
def twoPartDoc : VideoDoc :=
  ⟨none, none, none, none,
   some [⟨some "P1", "/v/ac12345_1"⟩, ⟨some "P2", "/v/ac12345_2"⟩]⟩

/-! ## Theorems -/

/-- C1: On a fetched page in which every optional field is absent,
`get_video_info` does NOT return the documented defaults record: because
`get_multi_p_info` returns the two-field `MultiPartInfo` named tuple,
`part_list and len(part_list) > 1` is always satisfied and the loop
subscripts the tuple elements with `"url"`, raising `TypeError`, which the
outer handler converts into the failure value `None` — for every regex
engine, date parser, clock value and vid. -/
theorem resolve_video_empty_doc_returns_failure :
    ∀ (matchUid matchPartVid matchAcNum parseDate : String → Option String)
      (now vidStr : String),
      get_video_info matchUid matchPartVid matchAcNum parseDate now vidStr
        (some emptyDoc) (some emptyDoc) = none := by
  intro mu mp ma pd now v
  rfl

/-- C3: On a fetched page whose part-list region has exactly one entry, the
descriptor built by `get_multi_p_info` reports `has_multi_part = true`
(not `false` as claimed), and `get_video_info` on that page returns the
failure value `None` instead of a single-part record; for a two-entry
region the parts are listed in document order. -/
theorem one_entry_part_region_not_normalized :
    ∀ (matchUid matchPartVid matchAcNum parseDate : String → Option String)
      (now vidStr : String),
      (get_multi_p_info matchPartVid onePartDoc).has_multi_part = true
      ∧ (get_multi_p_info matchPartVid onePartDoc).part_list.length = 1
      ∧ get_video_info matchUid matchPartVid matchAcNum parseDate now vidStr
          (some onePartDoc) (some onePartDoc) = none
      ∧ (get_multi_p_info matchPartVid twoPartDoc).part_list.map
          PartVideoMetadata.title = ["P1", "P2"] := by
  intro mu mp ma pd now v
  exact ⟨rfl, rfl, rfl, rfl⟩

/-- C5: `download_up_videos` never reaches its per-video loop on a
successful extraction: `get_up_videos` returns a list, and subscripting it
with `"videos"` raises `TypeError` whenever the list is non-empty (a `None`
or empty result yields the count 0).  The loop itself, as written, would
attempt every (possibly capped) video in order and count the successes. -/
theorem download_up_videos_raises_type_error :
    ∀ (v : String) (rest : List String),
      download_up_videos (.videos (v :: rest))
        = .error "TypeError: list indices must be integers or slices, not str"
      ∧ download_up_videos .failure = .ok 0
      ∧ download_up_videos (.videos []) = .ok 0
      ∧ downloadUpLoop ["v1", "v2", "v3"] none (fun s => s != "v2")
          = (2, ["v1", "v2", "v3"])
      ∧ downloadUpLoop ["v1", "v2", "v3"] (some 2) (fun s => s != "v2")
          = (1, ["v1", "v2"]) := by
  intro v rest
  refine ⟨rfl, rfl, rfl, by decide, by decide⟩

/-- C8: Two identifiers compare equal exactly when their underlying strings
are equal, and equal identifiers have equal hashes (for every string hash
function), so identifiers index map entries consistently. -/
theorem identifier_eq_iff_and_hash :
    ∀ (a b : String),
      (acfunIdEq .base a (.acfunId .base b) = true ↔ a = b)
      ∧ ∀ (h : String → Int), acfunIdEq .base a (.acfunId .base b) = true →
          acfunIdHash h .base a = acfunIdHash h .base b := by
  intro a b
  refine ⟨by simp [acfunIdEq], ?_⟩
  intro h heq
  have hab : a = b := by simpa [acfunIdEq] using heq
  simp [acfunIdHash, hab]

/-- Witness for C8 at the concrete strings "ac123" and hash = length. -/
theorem identifier_eq_iff_and_hash_witness :
    acfunIdEq .base "ac123" (.acfunId .base "ac123") = true
    ∧ acfunIdHash (fun s => (s.length : Int)) .base "ac123"
        = acfunIdHash (fun s => (s.length : Int)) .base "ac123" :=
  ⟨(identifier_eq_iff_and_hash "ac123" "ac123").1.mpr rfl,
   (identifier_eq_iff_and_hash "ac123" "ac123").2 (fun s => (s.length : Int))
     ((identifier_eq_iff_and_hash "ac123" "ac123").1.mpr rfl)⟩

/-- C10: Equality ignores the identifier subtype — a `Vid` and a `Uid`
wrapping the same string compare equal — and comparing an identifier with
any non-identifier value returns `false` rather than raising. -/
theorem identifier_cross_subtype_equality :
    ∀ (s : String),
      acfunIdEq .vid s (.acfunId .uid s) = true
      ∧ ∀ (o : PyObject), o.isAcfunId = false → acfunIdEq .vid s o = false := by
  intro s
  refine ⟨by simp [acfunIdEq], ?_⟩
  intro o ho
  cases o <;> simp_all [acfunIdEq, PyObject.isAcfunId]

/-- Witness for C10 at the concrete string "42" and a non-identifier operand. -/
theorem identifier_cross_subtype_equality_witness :
    acfunIdEq .vid "42" (.acfunId .uid "42") = true
    ∧ acfunIdEq .vid "42" (.pyStr "42") = false :=
  ⟨(identifier_cross_subtype_equality "42").1,
   (identifier_cross_subtype_equality "42").2 (.pyStr "42") rfl⟩

/-- C9: The Stream Set resolver succeeds exactly when the page was fetched,
the `window.videoInfo` blob was found, and the blob decodes as JSON; any
successful result is the hard-coded Stream Set holding exactly the tiers
720p and 480p with both a video and an audio url, independent of the blob. -/
theorem stream_resolver_fixed_tiers :
    ∀ (regexBlob : String → Option String) (jsonOk : String → Bool)
      (vid : String) (fetched : Option String),
      ((get_video_streams regexBlob jsonOk vid fetched).isSome = true ↔
        ∃ html blob, fetched = some html ∧ regexBlob html = some blob
          ∧ jsonOk blob = true)
      ∧ ∀ S, get_video_streams regexBlob jsonOk vid fetched = some S →
          S = [("720p", ⟨"https://example.com/video/" ++ vid ++ "_720p.m3u8",
                         "https://example.com/audio/" ++ vid ++ ".m3u8"⟩),
               ("480p", ⟨"https://example.com/video/" ++ vid ++ "_480p.m3u8",
                         "https://example.com/audio/" ++ vid ++ ".m3u8"⟩)] := by
  intro rb jo vid fetched
  constructor
  · cases fetched with
    | none => simp [get_video_streams]
    | some html =>
      cases hb : rb html with
      | none => simp [get_video_streams, hb]
      | some blob =>
        cases hj : jo blob with
        | false => simp [get_video_streams, hb, hj]
        | true => simp [get_video_streams, hb, hj]
  · intro S hS
    cases fetched with
    | none => simp [get_video_streams] at hS
    | some html =>
      cases hb : rb html with
      | none => simp [get_video_streams, hb] at hS
      | some blob =>
        cases hj : jo blob with
        | false => simp [get_video_streams, hb, hj] at hS
        | true =>
          simp [get_video_streams, hb, hj] at hS
          exact hS.symm

/-- Witness for C9: a concrete page, blob extractor and decoder verdict. -/
theorem stream_resolver_fixed_tiers_witness :
    get_video_streams (fun s => some s) (fun _ => true) "7" (some "page")
      = some [("720p", ⟨"https://example.com/video/" ++ "7" ++ "_720p.m3u8",
                        "https://example.com/audio/" ++ "7" ++ ".m3u8"⟩),
              ("480p", ⟨"https://example.com/video/" ++ "7" ++ "_480p.m3u8",
                        "https://example.com/audio/" ++ "7" ++ ".m3u8"⟩)] := by
  have h := (stream_resolver_fixed_tiers (fun s => some s) (fun _ => true) "7"
      (some "page")).2
      [("720p", ⟨"https://example.com/video/7_720p.m3u8",
                 "https://example.com/audio/7.m3u8"⟩),
       ("480p", ⟨"https://example.com/video/7_480p.m3u8",
                 "https://example.com/audio/7.m3u8"⟩)] (by decide)
  rw [← h]
  decide

/-- Ceiling form of the page count computed at extractor.py line 235. -/
theorem total_pages_eq_ceil (n : Nat) : total_pages n = (n + 19) / 20 := by
  unfold total_pages
  by_cases h : n % 20 > 0
  · rw [if_pos h]; omega
  · rw [if_neg h]; omega

/-- C6: With the exhaustive-fetch flag set and a declared total above 20,
`get_up_videos` requests exactly the pages `1, 2, ..., ceil(n / 20)` in
increasing order; with a total of at most 20 it requests only page 1,
whatever the flag; a declared total of 45 yields exactly 3 page requests. -/
theorem pagination_requests_ceil_pages :
    (∀ (n : Nat), 20 < n →
        pagesFetched n true = List.range' 1 ((n + 19) / 20)
        ∧ (pagesFetched n true).length = (n + 19) / 20)
    ∧ (∀ (n : Nat) (flag : Bool), n ≤ 20 → pagesFetched n flag = [1])
    ∧ pagesFetched 45 true = [1, 2, 3] := by
  refine ⟨?_, ?_, by decide⟩
  · intro n hn
    have htp := total_pages_eq_ceil n
    have h2 : 2 ≤ total_pages n := by rw [htp]; omega
    obtain ⟨m, hm⟩ : ∃ m, total_pages n = m + 1 := ⟨total_pages n - 1, by omega⟩
    have hc : (true && decide (n > 20)) = true := by simp [hn]
    constructor
    · unfold pagesFetched
      rw [if_pos hc, ← htp, hm]
      simp [List.range'_succ]
    · unfold pagesFetched
      rw [if_pos hc]
      simp only [List.length_cons, List.length_range']
      omega
  · intro n flag hn
    have hc : (flag && decide (n > 20)) = false := by
      simp [Nat.not_lt.mpr hn]
    unfold pagesFetched
    rw [if_neg]
    simp [hc]

/-- Witness for C6 at the concrete totals 45 and 20. -/
theorem pagination_requests_ceil_pages_witness :
    pagesFetched 45 true = List.range' 1 ((45 + 19) / 20)
    ∧ pagesFetched 20 false = [1] :=
  ⟨(pagination_requests_ceil_pages.1 45 (by decide)).1,
   pagination_requests_ceil_pages.2.1 20 false (by decide)⟩

/-- Appending different suffixes to the same string gives different strings. -/
theorem string_append_ne {s a b : String} (h : a ≠ b) : s ++ a ≠ s ++ b := by
  intro he
  apply h
  have hd : s.data ++ a.data = s.data ++ b.data := by
    have h2 := congrArg String.data he
    simpa [String.data_append] using h2
  exact String.ext (List.append_cancel_left hd)

/-- C4 counterexample: an acquisition in which the video stream completed
and the audio stream failed mid-download returns failure, yet both the
completed video temp file and the partial audio temp file are still on
disk when it returns — the claimed removal does not happen. -/
theorem temp_files_not_removed_counterexample :
    (download_single_video [("720p", ⟨"vU", "aU"⟩)] "720p" "T" "tmpv" "tmpa"
        .ok .failMid .mergeOk []).1 = false
    ∧ "tmpv" ∈ (download_single_video [("720p", ⟨"vU", "aU"⟩)] "720p" "T"
        "tmpv" "tmpa" .ok .failMid .mergeOk []).2
    ∧ "tmpa" ∈ (download_single_video [("720p", ⟨"vU", "aU"⟩)] "720p" "T"
        "tmpv" "tmpa" .ok .failMid .mergeOk []).2 := by
  refine ⟨rfl, by decide, by decide⟩

/-- C4 amended: when a tier was selected and at least one of the two stream
downloads fails, `_download_single_video` returns failure and removes
nothing — every temporary file created during the acquisition (the
completed file of the other stream, and the partial file of a mid-download
failure) remains on disk when it returns. -/
theorem temp_files_left_on_stream_failure :
    ∀ (streams : StreamSet) (quality title vTemp aTemp : String)
      (vOut aOut : StreamOutcome) (menv : MergeEnv) (fs : List String),
      (selectedStream streams quality).isSome = true →
      (vOut ≠ .ok ∨ aOut ≠ .ok) →
      download_single_video streams quality title vTemp aTemp vOut aOut menv fs
        = (false, (if aOut.creates then [aTemp] else [])
            ++ (if vOut.creates then [vTemp] else []) ++ fs) := by
  intro streams quality title vT aT vOut aOut menv fs hsel hfail
  obtain ⟨r, hr⟩ := Option.isSome_iff_exists.mp hsel
  cases vOut <;> cases aOut <;>
    simp_all [download_single_video, download_stream, StreamOutcome.creates]

/-- Witness for the amended C4: video fails mid-download, audio completes. -/
theorem temp_files_left_on_stream_failure_witness :
    download_single_video [("480p", ⟨"vU", "aU"⟩)] "480p" "W" "wv" "wa"
      .failMid .ok .mergeOk [] = (false, ["wa", "wv"]) := by
  have h := temp_files_left_on_stream_failure [("480p", ⟨"vU", "aU"⟩)] "480p"
    "W" "wv" "wa" .failMid .ok .mergeOk [] (by decide) (Or.inl (by decide))
  simpa using h

/-- C7: When both streams are retrieved and the ffmpeg version probe fails,
`_download_single_video` returns success, the two temp files have been
renamed to the permanent split outputs, and no merged output is produced
(the merged name appears in the final filesystem only if it was already
there). -/
theorem merge_degradation_split_outputs :
    ∀ (streams : StreamSet) (quality title vTemp aTemp : String)
      (fs : List String),
      (selectedStream streams quality).isSome = true →
      aTemp ≠ vTemp →
      aTemp ≠ sanitize title ++ "_video.mp4" →
      download_single_video streams quality title vTemp aTemp .ok .ok
          .ffmpegMissing fs
        = (true, (sanitize title ++ "_audio.m4a")
            :: (sanitize title ++ "_video.mp4") :: fs)
      ∧ (sanitize title ++ ".mp4" ∉ fs →
          sanitize title ++ ".mp4" ∉
            (download_single_video streams quality title vTemp aTemp .ok .ok
              .ffmpegMissing fs).2) := by
  intro streams quality title vT aT fs hsel hne1 hne2
  obtain ⟨r, hr⟩ := Option.isSome_iff_exists.mp hsel
  have hmain : download_single_video streams quality title vT aT .ok .ok
      .ffmpegMissing fs
      = (true, (sanitize title ++ "_audio.m4a")
          :: (sanitize title ++ "_video.mp4") :: fs) := by
    simp [download_single_video, hr, download_stream, fsRename,
      List.erase_cons, hne1, hne2, Ne.symm hne1, Ne.symm hne2]
  refine ⟨hmain, ?_⟩
  intro hnotin
  rw [hmain]
  simp only [List.mem_cons, not_or]
  exact ⟨string_append_ne (by decide), string_append_ne (by decide), hnotin⟩

/-- Witness for C7 at a concrete Stream Set, title and temp names. -/
theorem merge_degradation_split_outputs_witness :
    download_single_video [("720p", ⟨"vU", "aU"⟩)] "720p" "T" "tv" "ta"
      .ok .ok .ffmpegMissing []
      = (true, (sanitize "T" ++ "_audio.m4a")
          :: (sanitize "T" ++ "_video.mp4") :: []) :=
  (merge_degradation_split_outputs [("720p", ⟨"vU", "aU"⟩)] "720p" "T" "tv"
    "ta" [] (by decide) (by decide) (by decide)).1

/-- Scanning index lists with `findTier` selects the same tier label as a
first-present search over the corresponding list of tier names. -/
theorem findTier_map_fst (streams : StreamSet) :
    ∀ (idxs : List Nat),
      (findTier streams idxs).map Prod.fst
        = ((idxs.filterMap (fun j => qualities.get? j)).find?
            (fun q => (streams.lookup q).isSome))
  | [] => rfl
  | i :: rest => by
    cases hq : qualities.get? i with
    | none =>
      simp only [findTier, hq, List.filterMap_cons]
      exact findTier_map_fst streams rest
    | some q =>
      cases hl : streams.lookup q with
      | none =>
        simp only [findTier, hq, hl, List.filterMap_cons]
        rw [List.find?_cons_of_neg]
        · exact findTier_map_fst streams rest
        · simp [hl]
      | some s =>
        simp only [findTier, hq, hl, List.filterMap_cons]
        rw [List.find?_cons_of_pos]
        · rfl
        · simp [hl]

/-- The index computed at downloader.py line 103 is always one of 0..3. -/
theorem qualityIdx_cases (q : String) :
    qualityIdx q = 0 ∨ qualityIdx q = 1 ∨ qualityIdx q = 2 ∨ qualityIdx q = 3 := by
  unfold qualityIdx
  by_cases h : q ∈ qualities
  · simp only [qualities, List.mem_cons, List.not_mem_nil, or_false] at h
    rcases h with rfl | rfl | rfl | rfl <;> decide
  · simp [h]

/-- With an empty Stream Set, `findTier` never selects a tier. -/
theorem findTier_nil_streams :
    ∀ (idxs : List Nat), findTier ([] : StreamSet) idxs = none
  | [] => rfl
  | i :: rest => by
    cases hq : qualities.get? i with
    | none => simp only [findTier, hq]; exact findTier_nil_streams rest
    | some q => simp only [findTier, hq, List.lookup]; exact findTier_nil_streams rest

/-- At a fixed quality index, the code-side tier selection agrees with the
spec-side down-then-up scan. -/
theorem selectedStream_eq_specScan (streams : StreamSet) (q : String) (i : Nat)
    (hq : qualityIdx q = i)
    (hdown : (List.range' i (qualities.length - i)).filterMap
        (fun j => qualities.get? j) = qualities.drop i)
    (hup : ((List.range i).reverse).filterMap (fun j => qualities.get? j)
        = (qualities.take i).reverse) :
    (selectedStream streams q).map Prod.fst = specScan streams i := by
  have hd := findTier_map_fst streams (List.range' i (qualities.length - i))
  have hu := findTier_map_fst streams ((List.range i).reverse)
  rw [hdown] at hd
  rw [hup] at hu
  unfold selectedStream specScan
  rw [hq]
  cases hft : findTier streams (List.range' i (qualities.length - i)) with
  | some r =>
    rw [hft] at hd
    rw [← hd]
    simp
  | none =>
    rw [hft] at hd
    simp only [Option.map_none'] at hd
    rw [← hd]
    cases i with
    | zero => simp
    | succ n => simpa [Nat.succ_pos] using hu

/-- C2: The tier selection of `_download_single_video` matches the spec for
every Stream Set and requested label: first present among indices i..3,
else first present among i-1..0, else no selection; `{480p, 360p}` with
request 1080p selects 480p, `{1080p}` with request 360p selects 1080p, and
with no tier present the function returns failure without selecting. -/
theorem quality_fallback_matches_spec :
    (∀ (streams : StreamSet) (quality : String),
        (selectedStream streams quality).map Prod.fst
          = specScan streams (qualityIdx quality))
    ∧ (selectedStream [("480p", ⟨"v4", "a4"⟩), ("360p", ⟨"v3", "a3"⟩)]
        "1080p").map Prod.fst = some "480p"
    ∧ (selectedStream [("1080p", ⟨"v1", "a1"⟩)] "360p").map Prod.fst
        = some "1080p"
    ∧ ∀ (streams : StreamSet) (quality title vTemp aTemp : String)
        (vOut aOut : StreamOutcome) (menv : MergeEnv) (fs : List String),
        (∀ q ∈ qualities, streams.lookup q = none) →
        download_single_video streams quality title vTemp aTemp vOut aOut
          menv fs = (false, fs) := by
  have hmain : ∀ (streams : StreamSet) (quality : String),
      (selectedStream streams quality).map Prod.fst
        = specScan streams (qualityIdx quality) := by
    intro streams q
    rcases qualityIdx_cases q with h | h | h | h <;>
      rw [h] <;>
      exact selectedStream_eq_specScan streams q _ h (by decide) (by decide)
  refine ⟨hmain, by decide, by decide, ?_⟩
  intro streams quality title vT aT vOut aOut menv fs hnone
  have hspec : specScan streams (qualityIdx quality) = none := by
    unfold specScan
    have hfind : ∀ (l : List String), (∀ x ∈ l, x ∈ qualities) →
        l.find? (fun q => (streams.lookup q).isSome) = none := by
      intro l hl
      rw [List.find?_eq_none]
      intro x hx
      simp [hnone x (hl x hx)]
    rw [hfind _ (fun x hx => List.mem_of_mem_drop hx),
        hfind _ (fun x hx => List.mem_of_mem_take (List.mem_reverse.mp hx))]
  have hsel : selectedStream streams quality = none := by
    have h1 := hmain streams quality
    rw [hspec] at h1
    exact Option.map_eq_none'.mp h1
  simp [download_single_video, hsel]

/-- Witness for C2 at a Stream Set containing none of the four tiers. -/
theorem quality_fallback_matches_spec_witness :
    download_single_video [("144p", ⟨"x", "y"⟩)] "720p" "T" "tv" "ta"
      .ok .ok .mergeOk [] = (false, []) :=
  quality_fallback_matches_spec.2.2.2 [("144p", ⟨"x", "y"⟩)] "720p" "T" "tv"
    "ta" .ok .ok .mergeOk [] (by decide)

end AcfunDl
